import Mathlib

/-!
Verification development for the `goodqunbot` template application
(`app/utils.py`, `app/wx_manager.py`, `app/database.py`).

The Python sources are shallowly embedded as executable Lean definitions:
`datetime` values become a seven-field record over `Int`/`Nat` with explicit
Gregorian-calendar arithmetic (the same ordinal-based arithmetic CPython's
`datetime` uses), fallible code returns `Except PyError`, and the side
effects of the closed-source automation library are passed in explicitly as
environment records.
-/

/-- The Python exception classes the embedded code can raise, up to the
distinctions the embedded code observes. -/
inductive PyError where
  | valueError
  | overflowError
  | nameError
  | other
deriving DecidableEq, Repr

/-- A Python naive `datetime.datetime` value: the seven stored fields.
Validity (month in 1..12, day within the month, hour below 24, ...) is
enforced at construction sites exactly where CPython enforces it. -/
structure PyDateTime where
  year : Int
  month : Nat
  day : Nat
  hour : Nat
  minute : Nat
  second : Nat
  microsecond : Nat
deriving DecidableEq, Repr

/-- Gregorian leap-year rule, as CPython's `datetime` uses it. -/
def isLeapYear (y : Int) : Bool :=
  decide (Int.emod y 4 = 0 ∧ (Int.emod y 100 ≠ 0 ∨ Int.emod y 400 = 0))

/-- Number of days in a month (Gregorian). -/
def daysInMonth (y : Int) (m : Nat) : Nat :=
  if m = 2 then (if isLeapYear y then 29 else 28)
  else if m = 4 ∨ m = 6 ∨ m = 9 ∨ m = 11 then 30
  else 31

/-- Days between a Gregorian civil date and 1970-01-01 (standard
days-from-civil algorithm, using floor division). -/
def daysFromCivil (y0 : Int) (m d : Nat) : Int :=
  let y : Int := if m ≤ 2 then y0 - 1 else y0
  let era : Int := Int.fdiv y 400
  let yoe : Nat := (y - era * 400).toNat
  let mp : Nat := if m > 2 then m - 3 else m + 9
  let doy : Nat := (153 * mp + 2) / 5 + d - 1
  let doe : Nat := yoe * 365 + yoe / 4 - yoe / 100 + doy
  era * 146097 + (doe : Int) - 719468

/-- Inverse of `daysFromCivil` (standard civil-from-days algorithm). -/
def civilFromDays (z0 : Int) : Int × Nat × Nat :=
  let z : Int := z0 + 719468
  let era : Int := Int.fdiv z 146097
  let doe : Nat := (z - era * 146097).toNat
  let yoe : Nat := (doe - doe / 1460 + doe / 36524 - doe / 146096) / 365
  let doy : Nat := doe - (365 * yoe + yoe / 4 - yoe / 100)
  let mp : Nat := (5 * doy + 2) / 153
  let d : Nat := doy - (153 * mp + 2) / 5 + 1
  let m : Nat := if mp < 10 then mp + 3 else mp - 9
  (era * 400 + (yoe : Int) + (if m ≤ 2 then 1 else 0), m, d)

/-- A `PyDateTime` as a single microsecond count from the 1970-01-01
midnight epoch (CPython's `datetime` arithmetic is exactly arithmetic on
this quantity). -/
def toAbsMicro (dt : PyDateTime) : Int :=
  (((daysFromCivil dt.year dt.month dt.day * 24 + (dt.hour : Int)) * 60
      + (dt.minute : Int)) * 60 + (dt.second : Int)) * 1000000
    + (dt.microsecond : Int)

/-- Rebuild the seven datetime fields from a microsecond count. -/
def fromAbsMicro (a : Int) : PyDateTime :=
  let day : Int := Int.fdiv a 86400000000
  let rem : Nat := (a - day * 86400000000).toNat
  let c := civilFromDays day
  { year := c.1, month := c.2.1, day := c.2.2
    hour := rem / 3600000000
    minute := (rem / 60000000) % 60
    second := (rem / 1000000) % 60
    microsecond := rem % 1000000 }

/-- Python's `datetime.toordinal()`: day number with 0001-01-01 as day 1. -/
def pyOrdinal (dt : PyDateTime) : Int :=
  daysFromCivil dt.year dt.month dt.day + 719163

/-- Python's `datetime.weekday()`: Monday is 0, Sunday is 6. -/
def pyWeekday (dt : PyDateTime) : Nat :=
  (Int.emod (pyOrdinal dt + 6) 7).toNat

/-- The `datetime(...)` constructor: validates every field and raises
`ValueError` on any out-of-range value (seconds and microseconds are always
0 at the call sites embedded here, but are validated anyway). -/
def mkDateTime (y : Int) (m d h mi s us : Nat) : Except PyError PyDateTime :=
  if 1 ≤ y ∧ y ≤ 9999 ∧ 1 ≤ m ∧ m ≤ 12 ∧ 1 ≤ d ∧ d ≤ daysInMonth y m
      ∧ h ≤ 23 ∧ mi ≤ 59 ∧ s ≤ 59 ∧ us ≤ 999999 then
    .ok { year := y, month := m, day := d, hour := h, minute := mi,
          second := s, microsecond := us }
  else .error .valueError

/-- `dt.replace(hour=h, minute=mi, second=0, microsecond=0)`: validates the
new fields and raises `ValueError` when the hour or minute is out of range
(the regex captures are never negative). -/
def pyReplaceHM (dt : PyDateTime) (h mi : Nat) : Except PyError PyDateTime :=
  if h ≤ 23 ∧ mi ≤ 59 then
    .ok { dt with hour := h, minute := mi, second := 0, microsecond := 0 }
  else .error .valueError

/-- `dt.replace(hour=0, minute=0, second=0, microsecond=0)`: always valid. -/
def pyReplaceMidnight (dt : PyDateTime) : PyDateTime :=
  { dt with hour := 0, minute := 0, second := 0, microsecond := 0 }

/-- `dt - timedelta(microseconds=delta)`: CPython performs the arithmetic on
the ordinal/time fields and raises `OverflowError` when the result leaves
the supported year range 1..9999 (a `timedelta` constructor overflow at the
same call site is observationally the same `OverflowError`). -/
def pySubDelta (dt : PyDateTime) (deltaMicro : Int) : Except PyError PyDateTime :=
  let r := fromAbsMicro (toAbsMicro dt - deltaMicro)
  if 1 ≤ r.year ∧ r.year ≤ 9999 then .ok r else .error .overflowError

/-- `dt - timedelta(minutes=n)`. -/
def pySubMinutes (dt : PyDateTime) (n : Nat) : Except PyError PyDateTime :=
  pySubDelta dt ((n : Int) * 60000000)

/-- `dt - timedelta(hours=n)`. -/
def pySubHours (dt : PyDateTime) (n : Nat) : Except PyError PyDateTime :=
  pySubDelta dt ((n : Int) * 3600000000)

/-- `dt - timedelta(days=k)` (`k` may be negative, as in `近0天`). -/
def pySubDays (dt : PyDateTime) (k : Int) : Except PyError PyDateTime :=
  pySubDelta dt (k * 86400000000)

/-- `a <= b` on datetimes (CPython compares the field tuples; on valid
datetimes that order coincides with the order of the microsecond counts). -/
def dtLe (a b : PyDateTime) : Bool :=
  decide (toAbsMicro a ≤ toAbsMicro b)

/-- `a < b` on datetimes. -/
def dtLt (a b : PyDateTime) : Bool :=
  decide (toAbsMicro a < toAbsMicro b)

/-- `int(dt.timestamp())`: epoch seconds truncated toward zero.  The naive
datetimes here are modelled in a fixed (UTC) offset; the claims only compare
timestamps produced by this same function. -/
def pyTimestampInt (dt : PyDateTime) : Int :=
  Int.tdiv (toAbsMicro dt) 1000000

/-- The whitespace class used by `str.strip()` and `\s` (ASCII part). -/
def isPySpace (c : Char) : Bool :=
  c = ' ' ∨ c = '\t' ∨ c = '\n' ∨ c = '\r' ∨ c = '\x0b' ∨ c = '\x0c'

/-- `str.strip()` on a character list. -/
def pyStrip (cs : List Char) : List Char :=
  ((cs.dropWhile isPySpace).reverse.dropWhile isPySpace).reverse

/-- Numeric value of a decimal digit character. -/
def digitVal (c : Char) : Nat := c.toNat - '0'.toNat

/-- `int()` of a nonempty digit string. -/
def digitsToNat (cs : List Char) : Nat :=
  cs.foldl (fun a c => 10 * a + digitVal c) 0

/-- Match of `^(\d{1,2}):(\d{2})$` with the two captures as numbers. -/
def matchHHmm (cs : List Char) : Option (Nat × Nat) :=
  let ds := cs.takeWhile Char.isDigit
  let rest := cs.dropWhile Char.isDigit
  if 1 ≤ ds.length ∧ ds.length ≤ 2 then
    match rest with
    | ':' :: r2 =>
      if r2.length = 2 ∧ r2.all Char.isDigit then
        some (digitsToNat ds, digitsToNat r2)
      else none
    | _ => none
  else none

/-- Match of `^(\d+)suf$` for a literal suffix `suf` (used for the
`N分钟前` and `N小时前` patterns). -/
def matchNumThen (suf cs : List Char) : Option Nat :=
  let ds := cs.takeWhile Char.isDigit
  let rest := cs.dropWhile Char.isDigit
  if 1 ≤ ds.length ∧ rest = suf then some (digitsToNat ds) else none

/-- Match of the optional tail `(?:\s+(\d{1,2}):(\d{2}))?$`: `some none`
when the tail is empty, `some (some (h, mi))` when a whitespace-separated
time follows, `none` when the remainder matches neither. -/
def matchOptTime (cs : List Char) : Option (Option (Nat × Nat)) :=
  if cs = [] then some none
  else
    let r := cs.dropWhile isPySpace
    if r.length < cs.length then (matchHHmm r).map some
    else none

/-- Match of `^word(?:\s+(\d{1,2}):(\d{2}))?$` for a literal leading word
(used for the `昨天` and `前天` patterns). -/
def matchWordOptTime (w cs : List Char) : Option (Option (Nat × Nat)) :=
  if cs.take w.length = w then matchOptTime (cs.drop w.length) else none

/-- The weekday map of `parse_wechat_time` (Monday 0 .. Sunday 6). -/
def weekdayVal (c : Char) : Option Nat :=
  if c = '一' then some 0
  else if c = '二' then some 1
  else if c = '三' then some 2
  else if c = '四' then some 3
  else if c = '五' then some 4
  else if c = '六' then some 5
  else if c = '日' then some 6
  else if c = '天' then some 6
  else none

/-- Match of `^(?:周|星期)([一二三四五六日天])(?:\s+(\d{1,2}):(\d{2}))?$`. -/
def matchWeekday (cs : List Char) : Option (Nat × Option (Nat × Nat)) :=
  match cs with
  | '周' :: c :: rest =>
    match weekdayVal c with
    | some w => (matchOptTime rest).map (fun t => (w, t))
    | none => none
  | '星' :: '期' :: c :: rest =>
    match weekdayVal c with
    | some w => (matchOptTime rest).map (fun t => (w, t))
    | none => none
  | _ => none

/-- Match of `^(\d{1,2})月(\d{1,2})日(?:\s+(\d{1,2}):(\d{2}))?$`. -/
def matchMonthDay (cs : List Char) : Option (Nat × Nat × Option (Nat × Nat)) :=
  let ds := cs.takeWhile Char.isDigit
  let r1 := cs.dropWhile Char.isDigit
  if 1 ≤ ds.length ∧ ds.length ≤ 2 then
    match r1 with
    | '月' :: r2 =>
      let ds2 := r2.takeWhile Char.isDigit
      let r3 := r2.dropWhile Char.isDigit
      if 1 ≤ ds2.length ∧ ds2.length ≤ 2 then
        match r3 with
        | '日' :: r4 => (matchOptTime r4).map (fun t => (digitsToNat ds, digitsToNat ds2, t))
        | _ => none
      else none
    | _ => none
  else none

/-- Match of `^(\d{4})年(\d{1,2})月(\d{1,2})日(?:\s+(\d{1,2}):(\d{2}))?$`. -/
def matchYearMonthDay (cs : List Char) : Option (Nat × Nat × Nat × Option (Nat × Nat)) :=
  let ds := cs.takeWhile Char.isDigit
  let r1 := cs.dropWhile Char.isDigit
  if ds.length = 4 then
    match r1 with
    | '年' :: r2 => (matchMonthDay r2).map (fun p => (digitsToNat ds, p))
    | _ => none
  else none

/-- The pattern cascade of `parse_wechat_time` on the stripped character
list: tries the eight supported patterns in source order and falls through
to `None`.  Exceptions escaping from `replace`, `datetime(...)` or the
`timedelta` subtraction are modelled by the `Except` error channel. -/
def parseWechatCore (cs : List Char) (base_time : PyDateTime) :
    Except PyError (Option PyDateTime) :=
  if cs = ['刚', '刚'] then .ok (some base_time)
  else match matchHHmm cs with
  | some (h, mi) => (pyReplaceHM base_time h mi).map some
  | none =>
  match matchNumThen ['分', '钟', '前'] cs with
  | some n => (pySubMinutes base_time n).map some
  | none =>
  match matchNumThen ['小', '时', '前'] cs with
  | some n => (pySubHours base_time n).map some
  | none =>
  match matchWordOptTime ['昨', '天'] cs with
  | some t =>
    (pySubDays base_time 1).bind fun yd =>
      match t with
      | some (h, mi) => (pyReplaceHM yd h mi).map some
      | none => .ok (some (pyReplaceMidnight yd))
  | none =>
  match matchWordOptTime ['前', '天'] cs with
  | some t =>
    (pySubDays base_time 2).bind fun d2 =>
      match t with
      | some (h, mi) => (pyReplaceHM d2 h mi).map some
      | none => .ok (some (pyReplaceMidnight d2))
  | none =>
  match matchWeekday cs with
  | some (w, t) =>
    let diff0 := (Int.emod ((pyWeekday base_time : Int) - (w : Int)) 7).toNat
    let diff := if diff0 = 0 then 7 else diff0
    (pySubDays base_time (diff : Int)).bind fun td =>
      match t with
      | some (h, mi) => (pyReplaceHM td h mi).map some
      | none => .ok (some (pyReplaceMidnight td))
  | none =>
  match matchMonthDay cs with
  | some (m, d, t) =>
    (mkDateTime base_time.year m d 0 0 0 0).bind fun temp =>
      let y := if dtLt base_time temp then base_time.year - 1 else base_time.year
      match t with
      | some (h, mi) => (mkDateTime y m d h mi 0 0).map some
      | none => (mkDateTime y m d 0 0 0 0).map some
  | none =>
  match matchYearMonthDay cs with
  | some (y, m, d, t) =>
    match t with
    | some (h, mi) => (mkDateTime (y : Int) m d h mi 0 0).map some
    | none => (mkDateTime (y : Int) m d 0 0 0 0).map some
  | none => .ok none

/-- `parse_wechat_time(time_text, base_time)` from `app/utils.py`: `None`
for a falsy (empty) input, otherwise the pattern cascade on the stripped
text. -/
def parse_wechat_time (time_text : String) (base_time : PyDateTime) :
    Except PyError (Option PyDateTime) :=
  if time_text = "" then .ok none
  else parseWechatCore (pyStrip time_text.data) base_time

/-- Whether a stripped character list matches one of the eight supported
patterns of `parse_wechat_time`. -/
def wechatMatchesCore (cs : List Char) : Bool :=
  decide (cs = ['刚', '刚'])
    || (matchHHmm cs).isSome
    || (matchNumThen ['分', '钟', '前'] cs).isSome
    || (matchNumThen ['小', '时', '前'] cs).isSome
    || (matchWordOptTime ['昨', '天'] cs).isSome
    || (matchWordOptTime ['前', '天'] cs).isSome
    || (matchWeekday cs).isSome
    || (matchMonthDay cs).isSome
    || (matchYearMonthDay cs).isSome

/-- Whether `time_text` (after stripping) matches one of the eight
supported patterns of `parse_wechat_time`. -/
def wechatTimeMatches (time_text : String) : Bool :=
  if time_text = "" then false
  else wechatMatchesCore (pyStrip time_text.data)

/-- `list.startswith(p)` on character lists. -/
def listStartsWith (p cs : List Char) : Bool :=
  decide (cs.take p.length = p)

/-- `list.endswith(p)` on character lists. -/
def listEndsWith (p cs : List Char) : Bool :=
  decide (cs.drop (cs.length - p.length) = p)

/-- Match of `^近(\d+)天$` (the inner regex of `calculate_cutoff_time`). -/
def matchJinDays (cs : List Char) : Option Nat :=
  match cs with
  | c :: rest =>
    if c = '近' then
      let ds := rest.takeWhile Char.isDigit
      let r := rest.dropWhile Char.isDigit
      if 1 ≤ ds.length ∧ r = ['天'] then some (digitsToNat ds) else none
    else none
  | [] => none

/-- `calculate_cutoff_time(date_range, base_time)` from `app/utils.py`:
midnight of the base day for `今天`; for `近N天` the base time minus
`timedelta(days=N-1)` with the time fields then zeroed; `ValueError`
otherwise (raised both for a non-`近...天` string and for a `近...天`
string the inner regex rejects). -/
def calculate_cutoff_time (date_range : String) (base_time : PyDateTime) :
    Except PyError PyDateTime :=
  if date_range = "今天" then .ok (pyReplaceMidnight base_time)
  else
    let cs := date_range.data
    if listStartsWith ['近'] cs && listEndsWith ['天'] cs then
      match matchJinDays cs with
      | some days => (pySubDays base_time ((days : Int) - 1)).map pyReplaceMidnight
      | none => .error .valueError
    else .error .valueError

/-- A raw message object as produced by the automation library: the four
attributes the embedded code reads (`sender`, `content`, `type`, `time`). -/
structure RawMsg where
  sender : String
  content : String
  type : String
  time : String
deriving DecidableEq, Repr

/-- A message dictionary as built by `filter_messages_by_date_range`. -/
structure FilteredMsg where
  sender : String
  content : String
  msg_time : String
  msg_type : String
  msg_timestamp : Int
deriving DecidableEq, Repr

/-- The time-marker test used throughout `utils.py` and `wx_manager.py`:
`type == 'sys' and sender == 'SYS'`. -/
def isTimeMarker (m : RawMsg) : Bool :=
  decide (m.type = "sys") && decide (m.sender = "SYS")

/-- `extract_earliest_time_from_messages(messages, base_time)` from
`app/utils.py`: the parse of the first time-marker whose parse yields a
value; a raising parse propagates. -/
def extract_earliest_time_from_messages (basez : PyDateTime) :
    List RawMsg → Except PyError (Option PyDateTime)
  | [] => .ok none
  | m :: rest =>
    if isTimeMarker m then
      (parse_wechat_time m.content basez).bind fun
        | some t => .ok (some t)
        | none => extract_earliest_time_from_messages basez rest
    else extract_earliest_time_from_messages basez rest

/-- The loop body of `filter_messages_by_date_range`, with the running
`current_time_context` made explicit. -/
def filterGo (cutoff basez : PyDateTime) (ctx : Option (String × PyDateTime)) :
    List RawMsg → Except PyError (List FilteredMsg)
  | [] => .ok []
  | m :: rest =>
    if isTimeMarker m then
      (parse_wechat_time m.content basez).bind fun
        | some t => filterGo cutoff basez (some (m.content, t)) rest
        | none => filterGo cutoff basez ctx rest
    else
      match ctx with
      | some (txt, t) =>
        if dtLe cutoff t then
          (filterGo cutoff basez (some (txt, t)) rest).map
            (fun l => ⟨m.sender, m.content, txt, m.type, pyTimestampInt t⟩ :: l)
        else filterGo cutoff basez (some (txt, t)) rest
      | none =>
        (filterGo cutoff basez none rest).map
          (fun l => ⟨m.sender, m.content, "刚刚", m.type, pyTimestampInt basez⟩ :: l)

/-- `filter_messages_by_date_range(messages, cutoff_time, base_time)` from
`app/utils.py`: walk the messages with an initially absent time context. -/
def filter_messages_by_date_range (msgs : List RawMsg)
    (cutoff basez : PyDateTime) : Except PyError (List FilteredMsg) :=
  filterGo cutoff basez none msgs

/-- Modelled from the claim C9 wording: the parse of a time-marker message,
with an exception treated like an unparseable marker (the claim's
postcondition is only about runs where no parse raises). -/
def claimParsedMarker (basez : PyDateTime) (m : RawMsg) :
    Option (String × PyDateTime) :=
  if isTimeMarker m then
    match parse_wechat_time m.content basez with
    | .ok (some t) => some (m.content, t)
    | _ => none
  else none

/-- Modelled from the claim C9 wording: a parseable time marker becomes
the new governing time context; any other message leaves it unchanged. -/
def updateCtx (basez : PyDateTime) (m : RawMsg)
    (ctx : Option (String × PyDateTime)) : Option (String × PyDateTime) :=
  match claimParsedMarker basez m with
  | some p => some p
  | none => ctx

/-- Modelled from the claim C9 wording: drop the time markers; keep a
non-marker message exactly when the time parsed from the most recent
preceding parseable time marker is at or after the cutoff, stamping it with
that marker's text and timestamp; keep messages before any parseable marker
unconditionally, stamped with the base time and the text `刚刚`. -/
def claimFilterGo (cutoff basez : PyDateTime)
    (ctx : Option (String × PyDateTime)) : List RawMsg → List FilteredMsg
  | [] => []
  | m :: rest =>
    if isTimeMarker m then
      claimFilterGo cutoff basez (updateCtx basez m ctx) rest
    else
      match ctx with
      | some (txt, t) =>
        if dtLe cutoff t then
          ⟨m.sender, m.content, txt, m.type, pyTimestampInt t⟩ ::
            claimFilterGo cutoff basez (some (txt, t)) rest
        else claimFilterGo cutoff basez (some (txt, t)) rest
      | none =>
        ⟨m.sender, m.content, "刚刚", m.type, pyTimestampInt basez⟩ ::
          claimFilterGo cutoff basez none rest

/-- The mutable class-level state of `WxManager` that the connection
lifecycle reads and writes: `_wx` (the automation instance, identified by an
opaque id), `_connection_state`, `_retry_count` and `_last_heartbeat`
(a `time.time()` value, absent before the first successful creation). -/
structure WxState where
  wx : Option Nat
  connection_state : Bool
  retry_count : Nat
  last_heartbeat : Option Int
deriving DecidableEq, Repr

/-- `WxManager._MAX_RETRY_COUNT`. -/
def MAX_RETRY_COUNT : Nat := 3

/-- `WxManager._HEARTBEAT_INTERVAL` (seconds). -/
def HEARTBEAT_INTERVAL : Int := 60

/-- The state of the class attributes before any operation runs. -/
def initState : WxState :=
  { wx := none, connection_state := false, retry_count := 0, last_heartbeat := none }

/-- Outcome of one creation attempt, as decided by the external library:
the window precheck fails, `WeChat(myinfo=True)` raises, the created
instance has no non-empty `nickname`, or everything succeeds. -/
inductive CreateOutcome where
  | windowFail
  | wechatRaises
  | badNickname
  | success
deriving DecidableEq, Repr

/-- Environment of one `_create_instance` call: the attempt outcome, the
identity of the instance a successful `WeChat(...)` returns, and the
`time.time()` value recorded as the heartbeat on success. -/
structure CreateEnv where
  outcome : CreateOutcome
  inst : Nat
  now : Int
deriving DecidableEq, Repr

/-- Return value, post-state and total `time.sleep` seconds of one
`_create_instance` call. -/
structure CreateOut where
  ret : Option Nat
  st : WxState
  slept : Nat
deriving DecidableEq, Repr

/-- `WxManager._create_instance`: give up immediately at the retry cap;
otherwise wait `2 * _retry_count` seconds when retrying, then run the
precheck / construction / nickname validation, incrementing `_retry_count`
and clearing `_connection_state` on failure (the window-precheck failure
path leaves `_wx` untouched; the other two failure paths set it to `None`),
and on success storing the instance, the heartbeat time, a `True` connection
state and a zero retry count. -/
def createInstance (s : WxState) (env : CreateEnv) : CreateOut :=
  if s.retry_count ≥ MAX_RETRY_COUNT then ⟨none, s, 0⟩
  else
    let slept := if s.retry_count > 0 then 2 * s.retry_count else 0
    match env.outcome with
    | .windowFail =>
      ⟨none, { s with retry_count := s.retry_count + 1, connection_state := false }, slept⟩
    | .wechatRaises =>
      ⟨none,
       { s with retry_count := s.retry_count + 1, connection_state := false, wx := none },
       slept⟩
    | .badNickname =>
      ⟨none,
       { s with retry_count := s.retry_count + 1, connection_state := false, wx := none },
       slept⟩
    | .success =>
      ⟨some env.inst,
       { wx := some env.inst, connection_state := true, retry_count := 0,
         last_heartbeat := some env.now }, slept⟩

/-- Outcome of the external `GetSession()` call during a heartbeat. -/
inductive SessionOutcome where
  | ok
  | retNone
  | raises
deriving DecidableEq, Repr

/-- Environment of one `_check_connection` call: the `time.time()` value and
the `GetSession()` outcome (consulted only when the heartbeat fires). -/
structure CheckEnv where
  now : Int
  session : SessionOutcome
deriving DecidableEq, Repr

/-- Python truthiness of `self._last_heartbeat and (current_time -
self._last_heartbeat < self._HEARTBEAT_INTERVAL)`: an absent (or exactly
zero, hence falsy) heartbeat never counts as fresh. -/
def heartbeatFresh (lh : Option Int) (now : Int) : Bool :=
  match lh with
  | none => false
  | some t => decide (t ≠ 0 ∧ now - t < HEARTBEAT_INTERVAL)

/-- `WxManager._check_connection`: `False` with no instance; the cached
`_connection_state` inside the heartbeat interval; otherwise a `GetSession`
heartbeat that refreshes `_last_heartbeat` on success and drops the
instance on a `None` result or an exception. -/
def checkConnection (s : WxState) (env : CheckEnv) : Bool × WxState :=
  match s.wx with
  | none => (false, s)
  | some _ =>
    if heartbeatFresh s.last_heartbeat env.now then (s.connection_state, s)
    else
      match env.session with
      | .ok =>
        (true, { s with last_heartbeat := some env.now, connection_state := true })
      | .retNone => (false, { s with connection_state := false, wx := none })
      | .raises => (false, { s with connection_state := false, wx := none })

/-- `WxManager._cleanup_instance`: a no-op without an instance; otherwise
(whether or not `Close()` raises) the `finally` block clears `_wx`,
`_connection_state` and `_last_heartbeat`, leaving `_retry_count` alone. -/
def cleanupInstance (s : WxState) : WxState :=
  match s.wx with
  | none => s
  | some _ => { s with wx := none, connection_state := false, last_heartbeat := none }

/-- Environment of one `get_wx_instance` call: the heartbeat environment
for the possible `_check_connection`, and the creation environment for the
possible `_create_instance`. -/
structure GetEnv where
  check : CheckEnv
  create : CreateEnv
deriving DecidableEq, Repr

/-- `WxManager.get_wx_instance`: return the existing instance when its
connection checks out, otherwise clean up (when an instance existed) and
fall through to `_create_instance`. -/
def getWxInstance (s : WxState) (env : GetEnv) : Option Nat × WxState :=
  match s.wx with
  | some _ =>
    let c := checkConnection s env.check
    if c.1 then (c.2.wx, c.2)
    else
      let out := createInstance (cleanupInstance c.2) env.create
      (out.ret, out.st)
  | none =>
    let out := createInstance s env.create
    (out.ret, out.st)

/-- One operation on the `WxManager` state, each with the environment its
external calls need; this is the operation alphabet named by claim C5,
where `_create_instance` may be invoked as a step of its own. -/
inductive WxOp where
  | get (env : GetEnv)
  | create (env : CreateEnv)
  | check (env : CheckEnv)
  | cleanup
deriving DecidableEq, Repr

/-- Apply one operation to the state. -/
def stepOp (s : WxState) : WxOp → WxState
  | .get env => (getWxInstance s env).2
  | .create env => (createInstance s env).st
  | .check env => (checkConnection s env).2
  | .cleanup => cleanupInstance s

/-- Run a sequence of operations from the initial class state. -/
def runOps (ops : List WxOp) : WxState :=
  ops.foldl stepOp initState

/-- The operations reachable through the public surface of `WxManager`:
`_create_instance` is private and only ever reached through
`get_wx_instance` (which guarantees `_wx is None` at that point). -/
inductive PubOp where
  | get (env : GetEnv)
  | check (env : CheckEnv)
  | cleanup
deriving DecidableEq, Repr

/-- Apply one public operation to the state. -/
def pubStep (s : WxState) : PubOp → WxState
  | .get env => (getWxInstance s env).2
  | .check env => (checkConnection s env).2
  | .cleanup => cleanupInstance s

/-- Run a sequence of public operations from the initial class state. -/
def runPub (ops : List PubOp) : WxState :=
  ops.foldl pubStep initState

/-- State class 1: an instance is held and flagged connected, with a zero
retry count. -/
def connectedClass (s : WxState) : Bool :=
  s.wx.isSome && s.connection_state && decide (s.retry_count = 0)

/-- State class 2: no instance, disconnected, retries still available. -/
def retryingClass (s : WxState) : Bool :=
  s.wx.isNone && !s.connection_state && decide (s.retry_count < MAX_RETRY_COUNT)

/-- State class 3: no instance, disconnected, retries exhausted. -/
def exhaustedClass (s : WxState) : Bool :=
  s.wx.isNone && !s.connection_state && decide (s.retry_count = MAX_RETRY_COUNT)

/-- Membership in one of the three state classes of claim C5. -/
def inThreeClasses (s : WxState) : Bool :=
  connectedClass s || retryingClass s || exhaustedClass s

/-- `WxManager.__new__`: with the class-level `_instance` slot holding
`inst`, a construction call either returns the already-stored object or
stores and returns the freshly allocated one (`fresh` is the identity of
the object `super().__new__(cls)` would produce).  The double-checked
`_lock` only serializes the calls; the sequential semantics is this. -/
def wxNew (inst : Option Nat) (fresh : Nat) : Nat × Option Nat :=
  match inst with
  | some i => (i, some i)
  | none => (fresh, some fresh)

/-- Run a sequence of `WxManager()` constructions: returns the list of
objects handed back, in order, and the final `_instance` slot. -/
def runConstructions (inst : Option Nat) : List Nat → List Nat × Option Nat
  | [] => ([], inst)
  | f :: fs =>
    let r := wxNew inst f
    let rest := runConstructions r.2 fs
    (r.1 :: rest.1, rest.2)

/-- A row of the `groups` table (the columns `insert_group` touches). -/
structure GroupRow where
  id : Nat
  name : String
  member_count : Int
deriving DecidableEq, Repr

/-- The `groups` table with its `AUTOINCREMENT` counter. -/
structure GroupsDB where
  rows : List GroupRow
  nextId : Nat
deriving DecidableEq, Repr

/-- Whether a row with this name exists (the `UNIQUE` constraint on
`groups.name` makes the `INSERT` raise `IntegrityError` exactly then). -/
def nameExists (db : GroupsDB) (n : String) : Bool :=
  db.rows.any (fun r => r.name = n)

/-- `insert_group(name, member_count)` from `app/database.py`: try the
`INSERT` and return `lastrowid`; on `IntegrityError` run the `UPDATE` of
`member_count`, then `SELECT id` for the name and return it (or `None` when
the select finds no row). -/
def insert_group (db : GroupsDB) (name : String) (mc : Int) :
    Option Nat × GroupsDB :=
  if nameExists db name then
    let rows2 := db.rows.map
      (fun r => if r.name = name then { r with member_count := mc } else r)
    let row := rows2.find? (fun r => r.name = name)
    (row.map (fun r => r.id), { db with rows := rows2 })
  else
    (some db.nextId,
     { rows := db.rows ++ [{ id := db.nextId, name := name, member_count := mc }],
       nextId := db.nextId + 1 })

/-- Well-formedness of the `groups` table: the `UNIQUE` constraint, i.e.
pairwise distinct names. -/
def dbWf (db : GroupsDB) : Prop :=
  db.rows.Pairwise (fun a b => a.name ≠ b.name)

/-- A group entry built by `get_group_list`. -/
structure GroupEntry where
  name : String
  member_count : Int
deriving DecidableEq, Repr

/-- `int()` applied to a Python string: strip, optional sign, digits. -/
def pyIntOfString (s : String) : Option Int :=
  match pyStrip s.data with
  | '-' :: ds =>
    if ds ≠ [] ∧ ds.all Char.isDigit then some (-(digitsToNat ds : Int)) else none
  | '+' :: ds =>
    if ds ≠ [] ∧ ds.all Char.isDigit then some ((digitsToNat ds : Int)) else none
  | ds =>
    if ds ≠ [] ∧ ds.all Char.isDigit then some ((digitsToNat ds : Int)) else none

/-- `int(count) if count else 0` with `ValueError`/`TypeError` mapped to 0,
as in `get_group_list` (`count` is `None` or a string). -/
def toMemberCount (count : Option String) : Int :=
  match count with
  | none => 0
  | some s =>
    if s = "" then 0
    else match pyIntOfString s with
      | some v => v
      | none => 0

/-- Environment of one `get_group_list` call: the instance
`get_wx_instance()` returns, and the result of `GetAllRecentGroups()`
(either a raised exception or a list of `(name, count)` pairs). -/
structure GroupListEnv where
  wx : Option Nat
  getAllRecentGroups : Except PyError (List (String × Option String))
deriving Repr

/-- The `try` body of `get_group_list`: read the recent groups, return `[]`
when there are none, otherwise keep every non-temporary group (name without
`、`) with its parsed member count. -/
def groupListBody (env : GroupListEnv) : Except PyError (List GroupEntry) :=
  env.getAllRecentGroups.bind fun raw =>
    if raw = [] then .ok []
    else .ok (raw.filterMap fun p =>
      if p.1.contains '、' then none
      else some { name := p.1, member_count := toMemberCount p.2 })

/-- `WxManager.get_group_list`: `[]` without an instance, and the `try`
body with every exception caught and turned into `[]`. -/
def get_group_list (env : GroupListEnv) : List GroupEntry :=
  match env.wx with
  | none => []
  | some _ =>
    match groupListBody env with
    | .error _ => []
    | .ok l => l

/-- The message dictionary built by `get_group_messages` and
`load_more_messages`. -/
structure MsgDict where
  sender : String
  content : String
  msg_time : String
  msg_type : String
deriving DecidableEq, Repr

/-- The per-message dictionary mapping shared by `get_group_messages` and
`load_more_messages`. -/
def toMsgDict (m : RawMsg) : MsgDict :=
  { sender := m.sender, content := m.content, msg_time := m.time, msg_type := m.type }

/-- `msgs[-count:]` for a non-negative `count` (Python's `msgs[-0:]` is the
whole list). -/
def pyLastSlice (msgs : List RawMsg) (count : Nat) : List RawMsg :=
  if count = 0 then msgs else msgs.drop (msgs.length - count)

/-- Environment of one `get_group_messages` call. -/
structure MessagesEnv where
  wx : Option Nat
  chatWith : Except PyError Unit
  getAllMessage : Except PyError (List RawMsg)
deriving Repr

/-- The `try` body of `get_group_messages`: switch to the group, read all
messages, return `[]` when there are none, otherwise map the last `count`
messages to dictionaries. -/
def groupMessagesBody (env : MessagesEnv) (count : Nat) :
    Except PyError (List MsgDict) :=
  env.chatWith.bind fun _ =>
  env.getAllMessage.bind fun msgs =>
  if msgs = [] then .ok []
  else
    let target := if msgs.length > count then pyLastSlice msgs count else msgs
    .ok (target.map toMsgDict)

/-- `WxManager.get_group_messages`. -/
def get_group_messages (env : MessagesEnv) (count : Nat) : List MsgDict :=
  match env.wx with
  | none => []
  | some _ =>
    match groupMessagesBody env count with
    | .error _ => []
    | .ok l => l

/-- Environment of one `load_more_messages` call. -/
structure LoadMoreEnv where
  wx : Option Nat
  chatWith : Except PyError Unit
  loadMore : Except PyError Bool
  getAllMessage : Except PyError (List RawMsg)
deriving Repr

/-- The `try` body of `load_more_messages`: switch to the group, call
`LoadMoreMessage` (a falsy result means the top was reached), then read and
map all messages. -/
def loadMoreBody (env : LoadMoreEnv) : Except PyError (List MsgDict) :=
  env.chatWith.bind fun _ =>
  env.loadMore.bind fun result =>
  if result = false then .ok []
  else
    env.getAllMessage.bind fun msgs =>
    if msgs = [] then .ok []
    else .ok (msgs.map toMsgDict)

/-- `WxManager.load_more_messages`. -/
def load_more_messages (env : LoadMoreEnv) : List MsgDict :=
  match env.wx with
  | none => []
  | some _ =>
    match loadMoreBody env with
    | .error _ => []
    | .ok l => l

/-- Environment of one `get_group_members` call. -/
structure MembersEnv where
  wx : Option Nat
  chatWith : Except PyError Unit
  getGroupMembers : Except PyError (List String)
deriving Repr

/-- The `try` body of `get_group_members`: the anti-risk random delay,
the switch to the group, then `GetGroupMembers()` with `[]` for a falsy
result. -/
def groupMembersBody (env : MembersEnv) : Except PyError (List String) :=
  env.chatWith.bind fun _ =>
  env.getGroupMembers.bind fun members =>
  if members = [] then .ok []
  else .ok members

/-- `WxManager.get_group_members`. -/
def get_group_members (env : MembersEnv) : List String :=
  match env.wx with
  | none => []
  | some _ =>
    match groupMembersBody env with
    | .error _ => []
    | .ok l => l

/-- Environment of one `load_messages_by_date_range` call: the instance,
`datetime.now()`, and the outcome streams of the repeated
`LoadMoreMessage` and `GetAllMessage` calls (indexed by how many such calls
already ran). -/
structure DateRangeEnv where
  wx : Option Nat
  base : PyDateTime
  chatWith : Except PyError Unit
  loadMore : Nat → Except PyError Bool
  getAll : Nat → Except PyError (List RawMsg)

/-- The inner `for i in range(batch_load_freq)` loop of
`load_messages_by_date_range`: run up to `freq` `LoadMoreMessage` calls,
stopping early on a falsy result; returns the new cumulative call count and
the final value of the `result` local (`none` models the variable never
having been assigned, which is only possible when `freq` is 0 on every
round). -/
def batchLoad (env : DateRangeEnv) (lc : Nat) (res : Option Bool) :
    Nat → Except PyError (Nat × Option Bool)
  | 0 => .ok (lc, res)
  | k + 1 =>
    (env.loadMore lc).bind fun r =>
    if r then batchLoad env (lc + 1) (some true) k
    else .ok (lc + 1, some false)

/-- The `while iteration < max_iterations` loop of
`load_messages_by_date_range`, with `fuel = max_iterations - iteration`.
Returns the `all_messages` accumulator, the final `iteration` count and the
number of `GetAllMessage` calls made.  Reading the never-assigned `result`
local raises `NameError` exactly as CPython would. -/
def dateLoop (env : DateRangeEnv) (cutoff : PyDateTime) (freq : Nat) :
    Nat → Nat → Nat → Nat → Option Bool → List RawMsg →
    Except PyError (List RawMsg × Nat × Nat)
  | 0, iter, _, gc, _, allMsgs => .ok (allMsgs, iter, gc)
  | fuel + 1, iter, lc, gc, resVar, allMsgs =>
    (batchLoad env lc resVar freq).bind fun b =>
    (env.getAll gc).bind fun msgs =>
    if msgs = [] then .ok (allMsgs, iter + 1, gc + 1)
    else
      (extract_earliest_time_from_messages env.base msgs).bind fun earliest =>
      match earliest with
      | some t =>
        if dtLt t cutoff then .ok (msgs, iter + 1, gc + 1)
        else
          match b.2 with
          | none => .error .nameError
          | some r =>
            if r then dateLoop env cutoff freq fuel (iter + 1) b.1 (gc + 1) (some r) allMsgs
            else .ok (msgs, iter + 1, gc + 1)
      | none =>
        match b.2 with
        | none => .error .nameError
        | some r =>
          if r then dateLoop env cutoff freq fuel (iter + 1) b.1 (gc + 1) (some r) allMsgs
          else .ok (msgs, iter + 1, gc + 1)

/-- The `try` body of `load_messages_by_date_range`: compute the cutoff,
switch to the group, run the bounded loading loop, re-read the messages
when the iteration cap was reached, and filter.  (The debug pass that
re-parses the time markers after the filter call cannot raise when the
filter itself returned, since it parses exactly the same contents, so it is
not modelled as a separate step.) -/
def dateRangeBody (env : DateRangeEnv) (date_range : String)
    (freq maxIter : Nat) : Except PyError (List FilteredMsg) :=
  (calculate_cutoff_time date_range env.base).bind fun cutoff =>
  env.chatWith.bind fun _ =>
  (dateLoop env cutoff freq maxIter 0 0 0 none []).bind fun out =>
  (if maxIter ≤ out.2.1 then
    (env.getAll out.2.2).map (fun msgs => if msgs = [] then out.1 else msgs)
  else .ok out.1).bind fun finalMsgs =>
  filter_messages_by_date_range finalMsgs cutoff env.base

/-- `WxManager.load_messages_by_date_range`: `[]` without an instance, and
the `try` body with every exception caught and turned into `[]`. -/
def load_messages_by_date_range (env : DateRangeEnv) (date_range : String)
    (freq maxIter : Nat) : List FilteredMsg :=
  match env.wx with
  | none => []
  | some _ =>
    match dateRangeBody env date_range freq maxIter with
    | .error _ => []
    | .ok l => l

/-- A fixed, valid base datetime (2025-10-12 12:00:00) used by the concrete
witnesses and counterexamples below. -/
def sampleBase : PyDateTime :=
  { year := 2025, month := 10, day := 12, hour := 12, minute := 0,
    second := 0, microsecond := 0 }

theorem runConstructions_some (i : Nat) (fs : List Nat) :
    runConstructions (some i) fs = (List.replicate fs.length i, some i) := by
  induction fs with
  | nil => rfl
  | cons f fs ih => simp [runConstructions, wxNew, ih, List.replicate_succ]

/-- C1: `WxManager` is a singleton: for every sequence of constructions the
first call stores the freshly built object in the class-level `_instance`
slot, every later call returns that same object, and the slot is never
reassigned. -/
theorem wxManager_singleton (f : Nat) (fs : List Nat) :
    (runConstructions none (f :: fs)).1 = List.replicate (fs.length + 1) f ∧
    (runConstructions none (f :: fs)).2 = some f := by
  simp [runConstructions, wxNew, runConstructions_some, List.replicate_succ]

theorem createInstance_retry_le (s : WxState) (env : CreateEnv)
    (h : s.retry_count ≤ 3) : (createInstance s env).st.retry_count ≤ 3 := by
  unfold createInstance MAX_RETRY_COUNT
  split
  · exact h
  · rename_i hlt
    cases env.outcome <;> simp <;> omega

theorem checkConnection_retry_eq (s : WxState) (env : CheckEnv) :
    (checkConnection s env).2.retry_count = s.retry_count := by
  unfold checkConnection
  cases s.wx <;> simp
  split
  · rfl
  · cases env.session <;> rfl

theorem cleanupInstance_retry_eq (s : WxState) :
    (cleanupInstance s).retry_count = s.retry_count := by
  unfold cleanupInstance
  cases s.wx <;> rfl

theorem stepOp_retry_le (s : WxState) (op : WxOp) (h : s.retry_count ≤ 3) :
    (stepOp s op).retry_count ≤ 3 := by
  cases op with
  | get env =>
    show (getWxInstance s env).2.retry_count ≤ 3
    unfold getWxInstance
    cases hw : s.wx with
    | none => exact createInstance_retry_le s env.create h
    | some w =>
      simp only
      split
      · rw [checkConnection_retry_eq]; exact h
      · exact createInstance_retry_le _ _
          (by rw [cleanupInstance_retry_eq, checkConnection_retry_eq]; exact h)
  | create env => exact createInstance_retry_le s env h
  | check env => rw [show stepOp s (.check env) = (checkConnection s env).2 from rfl,
      checkConnection_retry_eq]; exact h
  | cleanup => rw [show stepOp s .cleanup = cleanupInstance s from rfl,
      cleanupInstance_retry_eq]; exact h

theorem foldl_retry_le (ops : List WxOp) (s : WxState) (h : s.retry_count ≤ 3) :
    (ops.foldl stepOp s).retry_count ≤ 3 := by
  induction ops generalizing s with
  | nil => exact h
  | cons op ops ih => exact ih (stepOp s op) (stepOp_retry_le s op h)

/-- C2: `_create_instance` gives up immediately (returning `None` and
leaving the state alone) once `_retry_count` has reached
`_MAX_RETRY_COUNT = 3`; below the cap every failed attempt returns `None`
and increments `_retry_count` by exactly one, while a successful attempt
resets it to zero; consequently `_retry_count` never exceeds 3 along any
operation sequence. -/
theorem createInstance_retry_bounded (s : WxState) (env : CreateEnv)
    (ops : List WxOp) :
    (MAX_RETRY_COUNT ≤ s.retry_count →
      createInstance s env = ⟨none, s, 0⟩) ∧
    (s.retry_count < MAX_RETRY_COUNT → env.outcome ≠ .success →
      (createInstance s env).ret = none ∧
      (createInstance s env).st.retry_count = s.retry_count + 1) ∧
    (s.retry_count < MAX_RETRY_COUNT → env.outcome = .success →
      (createInstance s env).ret = some env.inst ∧
      (createInstance s env).st.retry_count = 0) ∧
    (runOps ops).retry_count ≤ 3 := by
  refine ⟨?_, ?_, ?_, foldl_retry_le ops initState (by simp [initState])⟩
  · intro hge
    unfold createInstance
    rw [if_pos (by omega)]
  · intro hlt hfail
    unfold createInstance
    rw [if_neg (by omega)]
    cases henv : env.outcome <;> simp_all
  · intro hlt hsucc
    unfold createInstance
    rw [if_neg (by omega), hsucc]
    simp

/-- Concrete instantiation of `createInstance_retry_bounded`. -/
theorem createInstance_retry_bounded_witness :
    createInstance ⟨none, false, 3, none⟩ ⟨.success, 5, 100⟩ = ⟨none, ⟨none, false, 3, none⟩, 0⟩ ∧
    (createInstance ⟨none, false, 1, none⟩ ⟨.windowFail, 5, 100⟩).ret = none ∧
    (createInstance ⟨none, false, 1, none⟩ ⟨.windowFail, 5, 100⟩).st.retry_count = 2 ∧
    (createInstance ⟨none, false, 2, none⟩ ⟨.success, 5, 100⟩).ret = some 5 ∧
    (createInstance ⟨none, false, 2, none⟩ ⟨.success, 5, 100⟩).st.retry_count = 0 ∧
    (runOps [.create ⟨.windowFail, 0, 0⟩, .create ⟨.windowFail, 0, 0⟩]).retry_count ≤ 3 := by
  refine ⟨(createInstance_retry_bounded ⟨none, false, 3, none⟩ ⟨.success, 5, 100⟩ []).1 (by decide),
    ((createInstance_retry_bounded ⟨none, false, 1, none⟩ ⟨.windowFail, 5, 100⟩ []).2.1
      (by decide) (by decide)).1,
    ((createInstance_retry_bounded ⟨none, false, 1, none⟩ ⟨.windowFail, 5, 100⟩ []).2.1
      (by decide) (by decide)).2,
    ((createInstance_retry_bounded ⟨none, false, 2, none⟩ ⟨.success, 5, 100⟩ []).2.2.1
      (by decide) (by decide)).1,
    ((createInstance_retry_bounded ⟨none, false, 2, none⟩ ⟨.success, 5, 100⟩ []).2.2.1
      (by decide) (by decide)).2,
    (createInstance_retry_bounded ⟨none, false, 0, none⟩ ⟨.success, 5, 100⟩
      [.create ⟨.windowFail, 0, 0⟩, .create ⟨.windowFail, 0, 0⟩]).2.2.2⟩

/-- C3: below the retry cap, `_create_instance` sleeps exactly
`2 * _retry_count` seconds before attempting when `_retry_count` is
positive, and does not wait at all on the first attempt. -/
theorem createInstance_backoff (s : WxState) (env : CreateEnv) :
    (0 < s.retry_count → s.retry_count < MAX_RETRY_COUNT →
      (createInstance s env).slept = 2 * s.retry_count) ∧
    (s.retry_count = 0 → (createInstance s env).slept = 0) := by
  constructor
  · intro hpos hlt
    unfold createInstance
    rw [if_neg (by omega), if_pos hpos]
    cases env.outcome <;> rfl
  · intro hz
    unfold createInstance
    rw [if_neg (by simp [MAX_RETRY_COUNT]; omega)]
    rw [if_neg (by omega)]
    cases env.outcome <;> rfl

/-- Concrete instantiation of `createInstance_backoff`. -/
theorem createInstance_backoff_witness :
    (createInstance ⟨none, false, 2, none⟩ ⟨.windowFail, 5, 100⟩).slept = 4 ∧
    (createInstance ⟨none, false, 0, none⟩ ⟨.windowFail, 5, 100⟩).slept = 0 := by
  exact ⟨(createInstance_backoff ⟨none, false, 2, none⟩ ⟨.windowFail, 5, 100⟩).1
      (by decide) (by decide),
    (createInstance_backoff ⟨none, false, 0, none⟩ ⟨.windowFail, 5, 100⟩).2 (by decide)⟩

/-- C4: `_check_connection` returns `False` with no instance; with an
instance and a (truthy) heartbeat less than 60 seconds old it returns the
cached `_connection_state` without touching the state or consulting
`GetSession`; once 60 or more seconds have elapsed it runs the heartbeat,
refreshing `_last_heartbeat` and setting `_connection_state` on success and
dropping the instance when `GetSession` returns `None` or raises. -/
theorem checkConnection_heartbeat_cache (s : WxState) (env : CheckEnv)
    (w : Nat) (t : Int) :
    (s.wx = none → checkConnection s env = (false, s)) ∧
    (s.wx = some w → s.last_heartbeat = some t → t ≠ 0 →
      env.now - t < HEARTBEAT_INTERVAL →
      checkConnection s env = (s.connection_state, s)) ∧
    (s.wx = some w → s.last_heartbeat = some t →
      HEARTBEAT_INTERVAL ≤ env.now - t →
      (env.session = .ok →
        checkConnection s env =
          (true, { s with last_heartbeat := some env.now, connection_state := true })) ∧
      (env.session ≠ .ok →
        checkConnection s env =
          (false, { s with connection_state := false, wx := none }))) := by
  refine ⟨?_, ?_, ?_⟩
  · intro hw
    unfold checkConnection
    rw [hw]
  · intro hw hl ht hfresh
    unfold checkConnection
    rw [hw]
    simp only
    rw [if_pos (by simp [heartbeatFresh, hl]; exact ⟨ht, hfresh⟩)]
  · intro hw hl hstale
    have hnf : heartbeatFresh s.last_heartbeat env.now = false := by
      simp [heartbeatFresh, hl]
      intro _
      omega
    constructor
    · intro hs
      unfold checkConnection
      rw [hw]
      simp only
      rw [hnf, if_neg (by decide), hs]
    · intro hs
      unfold checkConnection
      rw [hw]
      simp only
      rw [hnf, if_neg (by decide)]
      cases hv : env.session <;> simp_all

/-- Concrete instantiation of `checkConnection_heartbeat_cache`. -/
theorem checkConnection_heartbeat_cache_witness :
    checkConnection ⟨none, false, 0, none⟩ ⟨100, .ok⟩ = (false, ⟨none, false, 0, none⟩) ∧
    checkConnection ⟨some 4, true, 0, some 70⟩ ⟨100, .raises⟩ = (true, ⟨some 4, true, 0, some 70⟩) ∧
    checkConnection ⟨some 4, true, 0, some 30⟩ ⟨100, .ok⟩ = (true, ⟨some 4, true, 0, some 100⟩) ∧
    checkConnection ⟨some 4, true, 0, some 30⟩ ⟨100, .retNone⟩ = (false, ⟨none, false, 0, some 30⟩) := by
  refine ⟨(checkConnection_heartbeat_cache ⟨none, false, 0, none⟩ ⟨100, .ok⟩ 0 0).1 rfl,
    (checkConnection_heartbeat_cache ⟨some 4, true, 0, some 70⟩ ⟨100, .raises⟩ 4 70).2.1
      rfl rfl (by decide) (by decide),
    ((checkConnection_heartbeat_cache ⟨some 4, true, 0, some 30⟩ ⟨100, .ok⟩ 4 30).2.2
      rfl rfl (by decide)).1 rfl,
    ((checkConnection_heartbeat_cache ⟨some 4, true, 0, some 30⟩ ⟨100, .retNone⟩ 4 30).2.2
      rfl rfl (by decide)).2 (by decide)⟩

theorem createInstance_state_inv (s : WxState) (env : CreateEnv)
    (hw : s.wx = none) (hc : s.connection_state = false) (hr : s.retry_count ≤ 3) :
    (createInstance s env).st.connection_state = (createInstance s env).st.wx.isSome ∧
    ((createInstance s env).st.wx.isSome = true → (createInstance s env).st.retry_count = 0) ∧
    (createInstance s env).st.retry_count ≤ 3 := by
  unfold createInstance MAX_RETRY_COUNT
  split
  · simp_all
  · cases henv : env.outcome <;> simp_all <;> omega

theorem checkConnection_state_inv (s : WxState) (env : CheckEnv)
    (h1 : s.connection_state = s.wx.isSome)
    (h2 : s.wx.isSome = true → s.retry_count = 0) (h3 : s.retry_count ≤ 3) :
    (checkConnection s env).2.connection_state = (checkConnection s env).2.wx.isSome ∧
    ((checkConnection s env).2.wx.isSome = true → (checkConnection s env).2.retry_count = 0) ∧
    (checkConnection s env).2.retry_count ≤ 3 := by
  unfold checkConnection
  cases hw : s.wx with
  | none => simp_all
  | some w =>
    simp only
    split
    · simp_all
    · cases hv : env.session <;> simp_all

theorem cleanupInstance_state_inv (s : WxState)
    (h1 : s.connection_state = s.wx.isSome) (h3 : s.retry_count ≤ 3) :
    (cleanupInstance s).connection_state = (cleanupInstance s).wx.isSome ∧
    ((cleanupInstance s).wx.isSome = true → (cleanupInstance s).retry_count = 0) ∧
    (cleanupInstance s).retry_count ≤ 3 := by
  unfold cleanupInstance
  cases hw : s.wx with
  | none => simp_all
  | some w => simp_all

theorem getWxInstance_state_inv (s : WxState) (env : GetEnv)
    (h1 : s.connection_state = s.wx.isSome)
    (h2 : s.wx.isSome = true → s.retry_count = 0) (h3 : s.retry_count ≤ 3) :
    (getWxInstance s env).2.connection_state = (getWxInstance s env).2.wx.isSome ∧
    ((getWxInstance s env).2.wx.isSome = true → (getWxInstance s env).2.retry_count = 0) ∧
    (getWxInstance s env).2.retry_count ≤ 3 := by
  unfold getWxInstance
  cases hw : s.wx with
  | none =>
    exact createInstance_state_inv s env.create hw (by rw [h1, hw]; rfl) h3
  | some w =>
    simp only
    split
    · exact checkConnection_state_inv s env.check h1 h2 h3
    · have hc := checkConnection_state_inv s env.check h1 h2 h3
      have hcl := cleanupInstance_state_inv (checkConnection s env.check).2 hc.1 hc.2.2
      refine createInstance_state_inv _ env.create ?_ ?_ hcl.2.2
      · unfold cleanupInstance
        cases hx : (checkConnection s env.check).2.wx with
        | none => exact hx
        | some v => rfl
      · unfold cleanupInstance
        cases hx : (checkConnection s env.check).2.wx with
        | none => rw [hc.1, hx]; rfl
        | some v => rfl

theorem pubStep_state_inv (s : WxState) (op : PubOp)
    (h1 : s.connection_state = s.wx.isSome)
    (h2 : s.wx.isSome = true → s.retry_count = 0) (h3 : s.retry_count ≤ 3) :
    (pubStep s op).connection_state = (pubStep s op).wx.isSome ∧
    ((pubStep s op).wx.isSome = true → (pubStep s op).retry_count = 0) ∧
    (pubStep s op).retry_count ≤ 3 := by
  cases op with
  | get env => exact getWxInstance_state_inv s env h1 h2 h3
  | check env => exact checkConnection_state_inv s env h1 h2 h3
  | cleanup => exact cleanupInstance_state_inv s h1 h3

theorem runPub_state_inv (ops : List PubOp) :
    (runPub ops).connection_state = (runPub ops).wx.isSome ∧
    ((runPub ops).wx.isSome = true → (runPub ops).retry_count = 0) ∧
    (runPub ops).retry_count ≤ 3 := by
  suffices h : ∀ (s : WxState), s.connection_state = s.wx.isSome →
      (s.wx.isSome = true → s.retry_count = 0) → s.retry_count ≤ 3 →
      (ops.foldl pubStep s).connection_state = (ops.foldl pubStep s).wx.isSome ∧
      ((ops.foldl pubStep s).wx.isSome = true → (ops.foldl pubStep s).retry_count = 0) ∧
      (ops.foldl pubStep s).retry_count ≤ 3 by
    exact h initState (by simp [initState]) (by simp [initState]) (by simp [initState])
  induction ops with
  | nil => intro s h1 h2 h3; exact ⟨h1, h2, h3⟩
  | cons op ops ih =>
    intro s h1 h2 h3
    have hstep := pubStep_state_inv s op h1 h2 h3
    exact ih (pubStep s op) hstep.1 hstep.2.1 hstep.2.2

/-- C5 fails as stated: over the operation alphabet of the claim (which
includes `_create_instance` as an operation in its own right), the
two-step sequence "successful `get_wx_instance`, then `_create_instance`
whose window precheck fails" reaches the state `(_wx = instance,
_connection_state = False, _retry_count = 1)` — the precheck-failure path
increments the retry count and clears the connection flag but leaves `_wx`
in place — which lies in none of the three state classes. -/
theorem wx_three_state_cex :
    inThreeClasses
      (runOps [WxOp.get ⟨⟨0, SessionOutcome.ok⟩, ⟨CreateOutcome.success, 1, 100⟩⟩,
               WxOp.create ⟨CreateOutcome.windowFail, 2, 200⟩]) = false := by
  decide

/-- C5 (amended): restricted to the operations actually reachable from the
public surface (`get_wx_instance`, `_check_connection`,
`_cleanup_instance`, with `_create_instance` invoked only inside
`get_wx_instance`, hence only when `_wx` is `None`), every reachable state
lies in one of three pairwise-disjoint classes — connected,
disconnected-with-retries-left, and retries-exhausted — and each of the
three classes is reachable. -/
theorem wx_three_state_machine (ops : List PubOp) (s : WxState) :
    inThreeClasses (runPub ops) = true ∧
    ¬(connectedClass s = true ∧ retryingClass s = true) ∧
    ¬(connectedClass s = true ∧ exhaustedClass s = true) ∧
    ¬(retryingClass s = true ∧ exhaustedClass s = true) ∧
    connectedClass (runPub [PubOp.get ⟨⟨0, .ok⟩, ⟨.success, 1, 100⟩⟩]) = true ∧
    retryingClass (runPub [PubOp.get ⟨⟨0, .ok⟩, ⟨.windowFail, 1, 100⟩⟩]) = true ∧
    exhaustedClass (runPub (List.replicate 3 (PubOp.get ⟨⟨0, .ok⟩, ⟨.windowFail, 1, 100⟩⟩))) = true := by
  refine ⟨?_, ?_, ?_, ?_, by decide, by decide, by decide⟩
  · have hinv := runPub_state_inv ops
    rcases hinv with ⟨h1, h2, h3⟩
    simp only [inThreeClasses, connectedClass, retryingClass, exhaustedClass,
      MAX_RETRY_COUNT]
    cases hw : (runPub ops).wx <;> simp_all <;> omega
  · rintro ⟨hc, hr⟩
    simp only [connectedClass] at hc
    simp only [retryingClass] at hr
    cases hx : s.wx <;> simp_all
  · rintro ⟨hc, hr⟩
    simp only [connectedClass] at hc
    simp only [exhaustedClass] at hr
    cases hx : s.wx <;> simp_all
  · rintro ⟨hc, hr⟩
    simp only [retryingClass, MAX_RETRY_COUNT] at hc
    simp only [exhaustedClass, MAX_RETRY_COUNT] at hr
    simp_all

/-- Concrete instantiation of `wx_three_state_machine`. -/
theorem wx_three_state_machine_witness :
    inThreeClasses (runPub [PubOp.cleanup]) = true ∧
    ¬(connectedClass initState = true ∧ retryingClass initState = true) := by
  exact ⟨(wx_three_state_machine [PubOp.cleanup] initState).1,
    (wx_three_state_machine [PubOp.cleanup] initState).2.1⟩

theorem find_updated_row (name : String) (mc : Int) (rows : List GroupRow)
    (h : rows.any (fun r => r.name = name) = true) :
    ∃ r, r ∈ rows ∧ r.name = name ∧
      (rows.map (fun r => if r.name = name then { r with member_count := mc } else r)).find?
          (fun r => r.name = name) = some { r with member_count := mc } := by
  induction rows with
  | nil => simp at h
  | cons r rest ih =>
    by_cases hr : r.name = name
    · refine ⟨r, List.mem_cons_self r rest, hr, ?_⟩
      simp only [List.map_cons, if_pos hr]
      rw [List.find?_cons_of_pos]
      simp [hr]
    · have h2 : rest.any (fun r => r.name = name) = true := by
        rcases List.any_eq_true.mp h with ⟨x, hx, hpx⟩
        rcases List.mem_cons.mp hx with hxr | hxm
        · subst hxr; simp only [decide_eq_true_eq] at hpx; exact absurd hpx hr
        · exact List.any_eq_true.mpr ⟨x, hxm, hpx⟩
      rcases ih h2 with ⟨r2, hmem, hname, hfind⟩
      refine ⟨r2, List.mem_cons_of_mem r hmem, hname, ?_⟩
      simp only [List.map_cons, if_neg hr]
      rw [List.find?_cons_of_neg]
      · exact hfind
      · simp [hr]

theorem updated_rows_mc (name : String) (mc : Int) (rows : List GroupRow) :
    ∀ r2 ∈ rows.map (fun r => if r.name = name then { r with member_count := mc } else r),
      r2.name = name → r2.member_count = mc := by
  intro r2 hmem hname
  rcases List.mem_map.mp hmem with ⟨r, hr, heq⟩
  by_cases hcase : r.name = name
  · rw [← heq]; simp [hcase]
  · rw [← heq] at hname ⊢
    simp only [if_neg hcase] at hname ⊢
    exact absurd hname hcase

/-- C7: `insert_group` is an upsert on the unique group name: a fresh name
is appended as a new row whose id (`lastrowid`) is returned; an existing
name triggers the `IntegrityError` path, which adds no row, updates that
row's `member_count`, and returns the existing row's id; and the table
keeps at most one row per name. -/
theorem insert_group_upsert (db : GroupsDB) (name : String) (mc : Int)
    (hwf : dbWf db) :
    (nameExists db name = false →
      insert_group db name mc =
        (some db.nextId,
         { rows := db.rows ++ [{ id := db.nextId, name := name, member_count := mc }],
           nextId := db.nextId + 1 })) ∧
    (nameExists db name = true →
      ∃ r, r ∈ db.rows ∧ r.name = name ∧
        (insert_group db name mc).1 = some r.id ∧
        (insert_group db name mc).2.rows.length = db.rows.length ∧
        (∀ r2 ∈ (insert_group db name mc).2.rows, r2.name = name →
          r2.member_count = mc)) ∧
    dbWf (insert_group db name mc).2 := by
  refine ⟨?_, ?_, ?_⟩
  · intro hex
    unfold insert_group
    rw [hex]
    simp
  · intro hex
    unfold insert_group
    rw [hex]
    simp only [if_pos rfl]
    rcases find_updated_row name mc db.rows (by simpa [nameExists] using hex)
      with ⟨r, hmem, hname, hfind⟩
    refine ⟨r, hmem, hname, ?_, by simp, ?_⟩
    · simp [hfind]
    · intro r2 hr2 hnm
      exact updated_rows_mc name mc db.rows r2 (by simpa using hr2) hnm
  · by_cases hex : nameExists db name = true
    · unfold insert_group
      rw [hex]
      simp only [if_pos rfl]
      unfold dbWf at hwf
      show List.Pairwise (fun a b => a.name ≠ b.name)
        (db.rows.map (fun r => if r.name = name then { r with member_count := mc } else r))
      rw [List.pairwise_map]
      refine hwf.imp ?_
      intro a b hab
      by_cases ha : a.name = name <;> by_cases hb : b.name = name <;>
        simp_all
    · unfold insert_group
      rw [Bool.not_eq_true] at hex
      rw [hex]
      rw [if_neg (by decide)]
      unfold dbWf at hwf
      show List.Pairwise (fun a b => a.name ≠ b.name)
        (db.rows ++ [{ id := db.nextId, name := name, member_count := mc }])
      rw [List.pairwise_append]
      refine ⟨hwf, List.pairwise_singleton _ _, ?_⟩
      intro a ha b hb
      simp only [List.mem_singleton] at hb
      subst hb
      simp only
      intro hcon
      have : db.rows.any (fun r => r.name = name) = true :=
        List.any_eq_true.mpr ⟨a, ha, by simp [hcon]⟩
      simp [nameExists, this] at hex

/-- Concrete instantiation of `insert_group_upsert`. -/
theorem insert_group_upsert_witness :
    insert_group ⟨[⟨1, "alpha", 5⟩], 2⟩ "beta" 7 =
      (some 2, ⟨[⟨1, "alpha", 5⟩, ⟨2, "beta", 7⟩], 3⟩) ∧
    (insert_group ⟨[⟨1, "alpha", 5⟩], 2⟩ "alpha" 9).1 = some 1 ∧
    dbWf (insert_group ⟨[⟨1, "alpha", 5⟩], 2⟩ "alpha" 9).2 := by
  refine ⟨(insert_group_upsert ⟨[⟨1, "alpha", 5⟩], 2⟩ "beta" 7 (by simp [dbWf])).1 (by decide),
    ?_, (insert_group_upsert ⟨[⟨1, "alpha", 5⟩], 2⟩ "alpha" 9 (by simp [dbWf])).2.2⟩
  rcases (insert_group_upsert ⟨[⟨1, "alpha", 5⟩], 2⟩ "alpha" 9 (by simp [dbWf])).2.1 (by decide)
    with ⟨r, hmem, hname, hid, _⟩
  simp only [List.mem_singleton] at hmem
  subst hmem
  exact hid

/-- C10: every public retrieval method returns `[]` rather than propagating
an exception, both when `get_wx_instance` yields no instance and when the
method body (whose every external automation call may raise) raises: the
whole body of each method sits inside a `try` whose handler returns `[]`. -/
theorem retrieval_methods_never_raise
    (e1 : GroupListEnv) (e2 : MessagesEnv) (e3 : LoadMoreEnv) (e4 : MembersEnv)
    (e5 : DateRangeEnv) (count freq maxIter : Nat) (dr : String) (err : PyError) :
    (e1.wx = none → get_group_list e1 = []) ∧
    (groupListBody e1 = .error err → get_group_list e1 = []) ∧
    (e2.wx = none → get_group_messages e2 count = []) ∧
    (groupMessagesBody e2 count = .error err → get_group_messages e2 count = []) ∧
    (e3.wx = none → load_more_messages e3 = []) ∧
    (loadMoreBody e3 = .error err → load_more_messages e3 = []) ∧
    (e4.wx = none → get_group_members e4 = []) ∧
    (groupMembersBody e4 = .error err → get_group_members e4 = []) ∧
    (e5.wx = none → load_messages_by_date_range e5 dr freq maxIter = []) ∧
    (dateRangeBody e5 dr freq maxIter = .error err →
      load_messages_by_date_range e5 dr freq maxIter = []) := by
  refine ⟨?_, ?_, ?_, ?_, ?_, ?_, ?_, ?_, ?_, ?_⟩
  · intro h; unfold get_group_list; rw [h]
  · intro h; unfold get_group_list; cases hw : e1.wx <;> simp [h]
  · intro h; unfold get_group_messages; rw [h]
  · intro h; unfold get_group_messages; cases hw : e2.wx <;> simp [h]
  · intro h; unfold load_more_messages; rw [h]
  · intro h; unfold load_more_messages; cases hw : e3.wx <;> simp [h]
  · intro h; unfold get_group_members; rw [h]
  · intro h; unfold get_group_members; cases hw : e4.wx <;> simp [h]
  · intro h; unfold load_messages_by_date_range; rw [h]
  · intro h; unfold load_messages_by_date_range; cases hw : e5.wx <;> simp [h]

/-- Concrete instantiation of `retrieval_methods_never_raise`: methods with
no instance, and methods whose first automation call raises, all return
`[]`. -/
theorem retrieval_methods_never_raise_witness :
    get_group_list ⟨none, .ok []⟩ = [] ∧
    get_group_list ⟨some 1, .error .other⟩ = [] ∧
    get_group_messages ⟨some 1, .error .other, .ok []⟩ 100 = [] ∧
    load_more_messages ⟨some 1, .ok (), .error .other, .ok []⟩ = [] ∧
    get_group_members ⟨some 1, .ok (), .error .other⟩ = [] ∧
    load_messages_by_date_range
      ⟨some 1, sampleBase, .error .other, fun _ => .ok false, fun _ => .ok []⟩
      "今天" 5 50 = [] := by
  refine ⟨(retrieval_methods_never_raise ⟨none, .ok []⟩ ⟨some 1, .error .other, .ok []⟩
      ⟨some 1, .ok (), .error .other, .ok []⟩ ⟨some 1, .ok (), .error .other⟩
      ⟨some 1, sampleBase, .error .other, fun _ => .ok false, fun _ => .ok []⟩
      100 5 50 "今天" .other).1 rfl,
    (retrieval_methods_never_raise ⟨some 1, .error .other⟩ ⟨some 1, .error .other, .ok []⟩
      ⟨some 1, .ok (), .error .other, .ok []⟩ ⟨some 1, .ok (), .error .other⟩
      ⟨some 1, sampleBase, .error .other, fun _ => .ok false, fun _ => .ok []⟩
      100 5 50 "今天" .other).2.1 rfl,
    (retrieval_methods_never_raise ⟨some 1, .error .other⟩ ⟨some 1, .error .other, .ok []⟩
      ⟨some 1, .ok (), .error .other, .ok []⟩ ⟨some 1, .ok (), .error .other⟩
      ⟨some 1, sampleBase, .error .other, fun _ => .ok false, fun _ => .ok []⟩
      100 5 50 "今天" .other).2.2.2.1 rfl,
    (retrieval_methods_never_raise ⟨some 1, .error .other⟩ ⟨some 1, .error .other, .ok []⟩
      ⟨some 1, .ok (), .error .other, .ok []⟩ ⟨some 1, .ok (), .error .other⟩
      ⟨some 1, sampleBase, .error .other, fun _ => .ok false, fun _ => .ok []⟩
      100 5 50 "今天" .other).2.2.2.2.2.1 rfl,
    (retrieval_methods_never_raise ⟨some 1, .error .other⟩ ⟨some 1, .error .other, .ok []⟩
      ⟨some 1, .ok (), .error .other, .ok []⟩ ⟨some 1, .ok (), .error .other⟩
      ⟨some 1, sampleBase, .error .other, fun _ => .ok false, fun _ => .ok []⟩
      100 5 50 "今天" .other).2.2.2.2.2.2.2.1 rfl,
    (retrieval_methods_never_raise ⟨some 1, .error .other⟩ ⟨some 1, .error .other, .ok []⟩
      ⟨some 1, .ok (), .error .other, .ok []⟩ ⟨some 1, .ok (), .error .other⟩
      ⟨some 1, sampleBase, .error .other, fun _ => .ok false, fun _ => .ok []⟩
      100 5 50 "今天" .other).2.2.2.2.2.2.2.2.2 rfl⟩

theorem exceptMapSomeNeOkNone (e : Except PyError PyDateTime) :
    Except.map some e ≠ Except.ok (none : Option PyDateTime) := by
  cases e <;> simp [Except.map]

theorem exceptBindNeOkNone (e : Except PyError PyDateTime)
    (f : PyDateTime → Except PyError (Option PyDateTime))
    (hf : ∀ x, f x ≠ .ok none) : e.bind f ≠ .ok none := by
  cases e with
  | error err => simp [Except.bind]
  | ok v => simpa [Except.bind] using hf v

theorem isSomeFalseEqNone {α : Type} (o : Option α) (h : o.isSome = false) :
    o = none := by
  cases o with
  | none => rfl
  | some v => simp at h

theorem parseWechatCore_unmatched (cs : List Char) (b : PyDateTime)
    (h : wechatMatchesCore cs = false) : parseWechatCore cs b = .ok none := by
  unfold wechatMatchesCore at h
  simp only [Bool.or_eq_false_iff, decide_eq_false_iff_not] at h
  obtain ⟨⟨⟨⟨⟨⟨⟨⟨h1, h2⟩, h3⟩, h4⟩, h5⟩, h6⟩, h7⟩, h8⟩, h9⟩ := h
  unfold parseWechatCore
  rw [if_neg h1, isSomeFalseEqNone _ h2, isSomeFalseEqNone _ h3,
    isSomeFalseEqNone _ h4, isSomeFalseEqNone _ h5, isSomeFalseEqNone _ h6,
    isSomeFalseEqNone _ h7, isSomeFalseEqNone _ h8, isSomeFalseEqNone _ h9]

theorem parseWechatCore_matched (cs : List Char) (b : PyDateTime)
    (h : wechatMatchesCore cs = true) : parseWechatCore cs b ≠ .ok none := by
  unfold parseWechatCore
  by_cases h1 : cs = ['刚', '刚']
  · simp [h1]
  · rw [if_neg h1]
    cases h2 : matchHHmm cs with
    | some v =>
      obtain ⟨vh, vm⟩ := v
      exact exceptMapSomeNeOkNone _
    | none =>
    cases h3 : matchNumThen ['分', '钟', '前'] cs with
    | some n => exact exceptMapSomeNeOkNone _
    | none =>
    cases h4 : matchNumThen ['小', '时', '前'] cs with
    | some n => exact exceptMapSomeNeOkNone _
    | none =>
    cases h5 : matchWordOptTime ['昨', '天'] cs with
    | some t =>
      refine exceptBindNeOkNone _ _ ?_
      intro x
      cases t with
      | some p => obtain ⟨ph, pm⟩ := p; exact exceptMapSomeNeOkNone _
      | none => simp
    | none =>
    cases h6 : matchWordOptTime ['前', '天'] cs with
    | some t =>
      refine exceptBindNeOkNone _ _ ?_
      intro x
      cases t with
      | some p => obtain ⟨ph, pm⟩ := p; exact exceptMapSomeNeOkNone _
      | none => simp
    | none =>
    cases h7 : matchWeekday cs with
    | some wt =>
      obtain ⟨w, t⟩ := wt
      refine exceptBindNeOkNone _ _ ?_
      intro x
      cases t with
      | some p => obtain ⟨ph, pm⟩ := p; exact exceptMapSomeNeOkNone _
      | none => simp
    | none =>
    cases h8 : matchMonthDay cs with
    | some mdt =>
      obtain ⟨m, d, t⟩ := mdt
      refine exceptBindNeOkNone _ _ ?_
      intro x
      cases t with
      | some p => obtain ⟨ph, pm⟩ := p; exact exceptMapSomeNeOkNone _
      | none => exact exceptMapSomeNeOkNone _
    | none =>
    cases h9 : matchYearMonthDay cs with
    | some ymdt =>
      obtain ⟨y, m, d, t⟩ := ymdt
      cases t with
      | some p => obtain ⟨ph, pm⟩ := p; exact exceptMapSomeNeOkNone _
      | none => exact exceptMapSomeNeOkNone _
    | none =>
      simp [wechatMatchesCore, h1, h2, h3, h4, h5, h6, h7, h8, h9] at h

/-- C6 fails as stated: the input `25:00` matches the supported `HH:mm`
pattern, yet `parse_wechat_time` neither returns a datetime nor `None` —
`base_time.replace(hour=25, ...)` raises `ValueError`. -/
theorem parse_wechat_time_cex :
    wechatTimeMatches "25:00" = true ∧
    parse_wechat_time "25:00" sampleBase = .error .valueError := ⟨rfl, rfl⟩

/-- C6 (amended): for every input string and base time,
`parse_wechat_time` returns `None` — never raising — for every input whose
stripped text matches none of the eight supported patterns (including the
empty text); when the stripped text does match a supported pattern it never
returns `None`: it returns a datetime, or raises `ValueError` /
`OverflowError` when the matched field values are out of range for the
resulting datetime. -/
theorem parse_wechat_time_amended (s : String) (b : PyDateTime) :
    (wechatTimeMatches s = false → parse_wechat_time s b = .ok none) ∧
    (wechatTimeMatches s = true → parse_wechat_time s b ≠ .ok none) := by
  unfold parse_wechat_time wechatTimeMatches
  by_cases hs : s = ""
  · rw [if_pos hs, if_pos hs]
    exact ⟨fun _ => rfl, fun hm => by simp at hm⟩
  · rw [if_neg hs, if_neg hs]
    exact ⟨parseWechatCore_unmatched _ b, parseWechatCore_matched _ b⟩

/-- Concrete instantiation of `parse_wechat_time_amended`. -/
theorem parse_wechat_time_amended_witness :
    parse_wechat_time "not a time" sampleBase = .ok none ∧
    parse_wechat_time "昨天 10:30" sampleBase ≠ .ok none := by
  exact ⟨(parse_wechat_time_amended "not a time" sampleBase).1 rfl,
    (parse_wechat_time_amended "昨天 10:30" sampleBase).2 rfl⟩

theorem matchJinDays_guard (cs : List Char) (n : Nat)
    (h : matchJinDays cs = some n) :
    listStartsWith ['近'] cs = true ∧ listEndsWith ['天'] cs = true := by
  cases cs with
  | nil => exact Option.noConfusion h
  | cons c rest =>
    simp only [matchJinDays] at h
    by_cases hc : c = '近'
    case neg => rw [if_neg hc] at h; exact Option.noConfusion h
    rw [if_pos hc] at h
    by_cases hcond : 1 ≤ (rest.takeWhile Char.isDigit).length ∧
        rest.dropWhile Char.isDigit = ['天']
    case neg => rw [if_neg hcond] at h; exact Option.noConfusion h
    subst hc
    obtain ⟨hlen, hdrop⟩ := hcond
    have hsplit := List.takeWhile_append_dropWhile (p := Char.isDigit) (l := rest)
    rw [hdrop] at hsplit
    constructor
    · simp [listStartsWith]
    · unfold listEndsWith
      rw [← hsplit]
      simp only [List.length_cons, List.length_append, List.length_nil]
      have hn : (rest.takeWhile Char.isDigit).length + (0 + 1) + 1 - (0 + 1) =
          (rest.takeWhile Char.isDigit).length + 1 := by omega
      rw [hn, List.drop_succ_cons, List.drop_left]
      simp

/-- C8 fails as stated: `近999999天` matches the supported `近N天` format,
yet `calculate_cutoff_time` does not return midnight of the day 999998 days
before the base time — that day lies before year 1, so the `timedelta`
subtraction raises `OverflowError` (not `ValueError`). -/
theorem calculate_cutoff_time_cex :
    matchJinDays ("近999999天").data = some 999999 ∧
    calculate_cutoff_time "近999999天" sampleBase = .error .overflowError :=
  ⟨rfl, rfl⟩

/-- C8 (amended): `calculate_cutoff_time` returns midnight of the base day
for `今天`; for a `date_range` matching `近N天` it returns midnight of the
day `N-1` days before the base time when that day lies in the supported
year range 1..9999, and raises `OverflowError` otherwise; for every other
`date_range` string it raises `ValueError` — it never returns for an
unsupported range. -/
theorem calculate_cutoff_time_amended (s : String) (b : PyDateTime)
    (n : Nat) (d : PyDateTime) :
    (s = "今天" → calculate_cutoff_time s b = .ok (pyReplaceMidnight b)) ∧
    (s ≠ "今天" → matchJinDays s.data = some n →
      pySubDays b ((n : Int) - 1) = .ok d →
      calculate_cutoff_time s b = .ok (pyReplaceMidnight d)) ∧
    (s ≠ "今天" → matchJinDays s.data = some n →
      pySubDays b ((n : Int) - 1) = .error PyError.overflowError →
      calculate_cutoff_time s b = .error .overflowError) ∧
    (s ≠ "今天" → matchJinDays s.data = none →
      calculate_cutoff_time s b = .error .valueError) ∧
    (pyReplaceMidnight d).hour = 0 ∧ (pyReplaceMidnight d).minute = 0 ∧
    (pyReplaceMidnight d).second = 0 ∧ (pyReplaceMidnight d).microsecond = 0 := by
  refine ⟨?_, ?_, ?_, ?_, rfl, rfl, rfl, rfl⟩
  · intro hs
    unfold calculate_cutoff_time
    rw [if_pos hs]
  · intro hs hm hsub
    obtain ⟨hg1, hg2⟩ := matchJinDays_guard s.data n hm
    unfold calculate_cutoff_time
    rw [if_neg hs, if_pos (by rw [hg1, hg2]; rfl), hm]
    show Except.map pyReplaceMidnight (pySubDays b ((n : Int) - 1)) = _
    rw [hsub]
    rfl
  · intro hs hm hsub
    obtain ⟨hg1, hg2⟩ := matchJinDays_guard s.data n hm
    unfold calculate_cutoff_time
    rw [if_neg hs, if_pos (by rw [hg1, hg2]; rfl), hm]
    show Except.map pyReplaceMidnight (pySubDays b ((n : Int) - 1)) = _
    rw [hsub]
    rfl
  · intro hs hm
    unfold calculate_cutoff_time
    rw [if_neg hs]
    by_cases hg : (listStartsWith ['近'] s.data && listEndsWith ['天'] s.data) = true
    · rw [if_pos hg, hm]
    · rw [if_neg hg]

/-- Concrete instantiation of `calculate_cutoff_time_amended`. -/
theorem calculate_cutoff_time_amended_witness :
    calculate_cutoff_time "今天" sampleBase = .ok (pyReplaceMidnight sampleBase) ∧
    calculate_cutoff_time "近3天" sampleBase =
      .ok (pyReplaceMidnight ⟨2025, 10, 10, 12, 0, 0, 0⟩) ∧
    calculate_cutoff_time "近a天" sampleBase = .error .valueError := by
  refine ⟨(calculate_cutoff_time_amended "今天" sampleBase 0 sampleBase).1 rfl,
    (calculate_cutoff_time_amended "近3天" sampleBase 3 ⟨2025, 10, 10, 12, 0, 0, 0⟩).2.1
      (by decide) rfl rfl,
    (calculate_cutoff_time_amended "近a天" sampleBase 0 sampleBase).2.2.2.1
      (by decide) rfl⟩

theorem claimFilterGo_no_marker (cutoff basez : PyDateTime)
    (ctx : Option (String × PyDateTime)) (msgs : List RawMsg) :
    ∀ f ∈ claimFilterGo cutoff basez ctx msgs,
      ¬(f.msg_type = "sys" ∧ f.sender = "SYS") := by
  induction msgs generalizing ctx with
  | nil => intro f hf; simp [claimFilterGo] at hf
  | cons m rest ih =>
    intro f hf
    unfold claimFilterGo at hf
    by_cases hmk : isTimeMarker m = true
    · rw [if_pos hmk] at hf
      exact ih _ f hf
    · rw [if_neg hmk] at hf
      cases hctx : ctx with
      | some p =>
        obtain ⟨txt, t⟩ := p
        rw [hctx] at hf
        simp only at hf
        by_cases hle : dtLe cutoff t = true
        · rw [if_pos hle] at hf
          rcases List.mem_cons.mp hf with heq | hmem
          · subst heq
            rintro ⟨h1, h2⟩
            exact hmk (by simp_all [isTimeMarker])
          · exact ih _ f hmem
        · rw [if_neg hle] at hf
          exact ih _ f hf
      | none =>
        rw [hctx] at hf
        simp only at hf
        rcases List.mem_cons.mp hf with heq | hmem
        · subst heq
          rintro ⟨h1, h2⟩
          exact hmk (by simp_all [isTimeMarker])
        · exact ih _ f hmem

theorem filterGo_spec (cutoff basez : PyDateTime) (msgs : List RawMsg)
    (ctx : Option (String × PyDateTime)) (res : List FilteredMsg)
    (h : filterGo cutoff basez ctx msgs = .ok res) :
    res = claimFilterGo cutoff basez ctx msgs := by
  induction msgs generalizing ctx res with
  | nil =>
    unfold filterGo at h
    unfold claimFilterGo
    exact (Except.ok.inj h).symm
  | cons m rest ih =>
    unfold filterGo at h
    unfold claimFilterGo
    by_cases hmk : isTimeMarker m = true
    · rw [if_pos hmk] at h ⊢
      cases hp : parse_wechat_time m.content basez with
      | error e =>
        rw [hp] at h
        exact absurd h (by simp [Except.bind])
      | ok v =>
        rw [hp] at h
        simp only [Except.bind] at h
        cases v with
        | some t =>
          have hu : updateCtx basez m ctx = some (m.content, t) := by
            simp [updateCtx, claimParsedMarker, hmk, hp]
          rw [hu]
          exact ih _ res h
        | none =>
          have hu : updateCtx basez m ctx = ctx := by
            simp [updateCtx, claimParsedMarker, hmk, hp]
          rw [hu]
          exact ih _ res h
    · rw [if_neg hmk] at h ⊢
      cases hctx : ctx with
      | some p =>
        obtain ⟨txt, t⟩ := p
        rw [hctx] at h
        simp only at h ⊢
        by_cases hle : dtLe cutoff t = true
        · rw [if_pos hle] at h ⊢
          cases hrec : filterGo cutoff basez (some (txt, t)) rest with
          | error e =>
            rw [hrec] at h
            exact absurd h (by simp [Except.map])
          | ok l =>
            rw [hrec] at h
            simp only [Except.map] at h
            rw [← Except.ok.inj h, ih _ l hrec]
        · rw [if_neg hle] at h ⊢
          exact ih _ res h
      | none =>
        rw [hctx] at h
        simp only at h ⊢
        cases hrec : filterGo cutoff basez none rest with
        | error e =>
          rw [hrec] at h
          exact absurd h (by simp [Except.map])
        | ok l =>
          rw [hrec] at h
          simp only [Except.map] at h
          rw [← Except.ok.inj h, ih _ l hrec]

/-- C9: whenever `filter_messages_by_date_range` returns (for a cutoff not
after the base time), no time-marker message appears in the result, and the
result is exactly the claim's reference walk: a non-marker message is kept
if and only if the time parsed from the most recent preceding parseable
time marker is at or after the cutoff — stamped with that marker's text and
timestamp — and messages before any parseable marker are kept
unconditionally, stamped with the base time and `刚刚`. -/
theorem filter_messages_postcondition (msgs : List RawMsg)
    (cutoff basez : PyDateTime) (res : List FilteredMsg)
    (hcb : dtLe cutoff basez = true)
    (h : filter_messages_by_date_range msgs cutoff basez = .ok res) :
    res = claimFilterGo cutoff basez none msgs ∧
    ∀ f ∈ res, ¬(f.msg_type = "sys" ∧ f.sender = "SYS") := by
  have he := filterGo_spec cutoff basez msgs none res h
  refine ⟨he, ?_⟩
  intro f hf
  rw [he] at hf
  exact claimFilterGo_no_marker cutoff basez none msgs f hf

/-- Concrete instantiation of `filter_messages_postcondition`. -/
theorem filter_messages_postcondition_witness :
    dtLe (pyReplaceMidnight sampleBase) sampleBase = true ∧
    [⟨"alice", "hello", "10:30", "text", 1760265000⟩,
     ⟨"carol", "yo", "10:30", "text", 1760265000⟩] =
      claimFilterGo (pyReplaceMidnight sampleBase) sampleBase none
        [⟨"SYS", "昨天 09:00", "sys", ""⟩, ⟨"bob", "hi", "text", ""⟩,
         ⟨"SYS", "10:30", "sys", ""⟩, ⟨"alice", "hello", "text", ""⟩,
         ⟨"SYS", "gibberish", "sys", ""⟩, ⟨"carol", "yo", "text", ""⟩] := by
  have h := filter_messages_postcondition
    [⟨"SYS", "昨天 09:00", "sys", ""⟩, ⟨"bob", "hi", "text", ""⟩,
     ⟨"SYS", "10:30", "sys", ""⟩, ⟨"alice", "hello", "text", ""⟩,
     ⟨"SYS", "gibberish", "sys", ""⟩, ⟨"carol", "yo", "text", ""⟩]
    (pyReplaceMidnight sampleBase) sampleBase
    [⟨"alice", "hello", "10:30", "text", 1760265000⟩,
     ⟨"carol", "yo", "10:30", "text", 1760265000⟩] rfl rfl
  exact ⟨rfl, h.1⟩
